import Mathlib

/-!
Shallow embedding of the stencila/cloud pod-pool allocator.

Source files embedded here:
* `src/unnamed/part_000` — the TypeScript `KubernetesCluster`
  (`softwareSessionToResourceLimitsTransformer`, `_podToSession`, `list`,
  `resolve`, `spawn`, `CONTAINER_MAP`);
* `src/Host.js` — the legacy callback-based `Host` (`aquire`, `obtain`);
* `src/lib/Cluster.js` — the `Cluster.fill` standby-pool loop.

Modelling conventions: JavaScript numbers are `ℚ` (resource arithmetic) or
`Int` (timestamps); machine I/O (the Kubernetes control plane) is passed in
explicitly as function arguments (listing responses, patch responses) and
control-plane writes appear as returned request values; an error-first
callback `cb(err, value)` is an `Option (Except ε α)` result where `none`
means the callback was never invoked.
-/

namespace StencilaCloud

/-- JavaScript `String.prototype.toLowerCase` restricted to the ASCII pod
phases that occur in the program (`Pending`, `Running`, `Succeeded`,
`Failed`, `Unknown`), as used by `_podToSession` in `part_000`. -/
def jsToLowerCase (s : String) : String :=
  String.mk (s.data.map Char.toLower)

/-- JavaScript truthiness of a string: the empty string is falsy. -/
def jsStringTruthy (s : String) : Bool :=
  s != ""

/-- Default session pod port (`DEFAULT_PORT = 2000` in `part_000`). -/
def DEFAULT_PORT : Nat := 2000

/-! ## Resource policy (`softwareSessionToResourceLimitsTransformer`) -/

/-- Process-wide resource constants of `part_000`
(`POD_REQUEST_CPU`, `POD_REQUEST_MEM`, `POD_LIMIT_CPU`, `POD_LIMIT_MEM`),
read from the environment at startup and fixed afterwards; kept abstract
here so theorems cover every configured value. -/
structure ResourceConfig where
  POD_REQUEST_CPU : ℚ
  POD_REQUEST_MEM : ℚ
  POD_LIMIT_CPU : ℚ
  POD_LIMIT_MEM : ℚ
deriving DecidableEq, Repr

/-- Fallback values hard-coded in `part_000`: request cpu 50m,
request mem 50/1024 Gi, limit cpu 1000m, limit mem 1.2 Gi. -/
def defaultResourceConfig : ResourceConfig :=
  { POD_REQUEST_CPU := 50
  , POD_REQUEST_MEM := 50 / 1024
  , POD_LIMIT_CPU := 1000
  , POD_LIMIT_MEM := 12 / 10 }

/-- Shape of `session.cpu` as accessed by the transformer
(`session.cpu && session.cpu.shares`). -/
structure CpuRequest where
  shares : Option ℚ
deriving DecidableEq, Repr

/-- Shape of `session.ram` as accessed by the transformer
(`session.ram.reservation`, `session.ram.limit`). -/
structure RamRequest where
  reservation : Option ℚ
  limit : Option ℚ
deriving DecidableEq, Repr

/-- Environment reference of a session (`session.environment.id`). -/
structure EnvironmentRef where
  id : String
deriving DecidableEq, Repr

/-- Session request. The `SoftwareSession` type itself lives in the
repository's `./context` module, which is not among the provided sources;
its fields here are exactly the ones `part_000` reads
(`environment.id`, `ram.reservation`, `ram.limit`, `cpu.shares`), with
optionality matching the truthiness guards in the source. -/
structure SoftwareSession where
  environment : EnvironmentRef
  ram : Option RamRequest
  cpu : Option CpuRequest
deriving DecidableEq, Repr

/-- JavaScript truthiness of an optional number: `undefined` and `0` are
falsy. -/
def numTruthy : Option ℚ → Bool
  | none => false
  | some x => x != 0

/-- One `requests`/`limits` entry. The source renders these as the strings
`` `${memory}Gi` `` and `` `${cpu}m` ``; the numeric payloads are modelled
(memory in Gi, cpu in millicores). -/
structure ContainerResourceDefinition where
  memory : ℚ
  cpu : ℚ
deriving DecidableEq, Repr

/-- Resources block of a container definition. -/
structure ContainerResources where
  requests : ContainerResourceDefinition
  limits : ContainerResourceDefinition
deriving DecidableEq, Repr

/-- Embedding of `softwareSessionToResourceLimitsTransformer` from
`part_000`: each `if (a && a.b)` truthiness guard becomes a match on the
option plus a zero test. -/
def softwareSessionToResourceLimitsTransformer
    (cfg : ResourceConfig) (session : SoftwareSession) : ContainerResources :=
  let memoryRequested : ℚ :=
    match session.ram with
    | some ram =>
      match ram.reservation with
      | some r => if r ≠ 0 then r else cfg.POD_REQUEST_MEM
      | none => cfg.POD_REQUEST_MEM
    | none => cfg.POD_REQUEST_MEM
  let memoryLimit : ℚ :=
    match session.ram with
    | some ram =>
      match ram.limit with
      | some l => if l ≠ 0 then l else cfg.POD_LIMIT_MEM
      | none => cfg.POD_LIMIT_MEM
    | none => cfg.POD_LIMIT_MEM
  let cpuLimit : ℚ :=
    match session.cpu with
    | some cpu =>
      match cpu.shares with
      | some s => if s ≠ 0 then (s / 1024) * 1000 else cfg.POD_LIMIT_CPU
      | none => cfg.POD_LIMIT_CPU
    | none => cfg.POD_LIMIT_CPU
  { requests := { memory := memoryRequested, cpu := cfg.POD_REQUEST_CPU }
  , limits := { memory := memoryLimit, cpu := cpuLimit } }

/-! ## Pod records and session descriptions (`part_000`) -/

/-- Pod metadata as consumed by `_podToSession`. -/
structure PodMetadata where
  name : String
  creationTimestamp : Int
deriving DecidableEq, Repr

/-- Pod status as consumed by `_podToSession`. -/
structure PodStatus where
  podIP : String
  phase : String
deriving DecidableEq, Repr

/-- Control-plane pod description (`PodDescription` in `part_000`). -/
structure PodDescription where
  metadata : PodMetadata
  status : PodStatus
deriving DecidableEq, Repr

/-- Client-visible session description (`SessionDescription` in
`part_000`); the constructor initialises `pendingPosition` to `-1`. -/
structure SessionDescription where
  id : String
  ip : String
  port : Nat
  created : Int
  status : String
  pendingPosition : Int
deriving DecidableEq, Repr

/-- Embedding of `KubernetesCluster._podToSession`: note that the pod phase
is lower-cased (`pod.status.phase.toLowerCase()`). -/
def _podToSession (pod : PodDescription) : SessionDescription :=
  { id := pod.metadata.name
  , ip := pod.status.podIP
  , port := DEFAULT_PORT
  , created := pod.metadata.creationTimestamp
  , status := jsToLowerCase pod.status.phase
  , pendingPosition := -1 }

/-- The two failure exits of `KubernetesCluster.resolve`:
`Error('Pod not ready yet')` and `Error('Pod failure?')`. -/
inductive ResolveError where
  | notReady
  | podFailed
deriving DecidableEq, Repr

/-- Embedding of `KubernetesCluster.resolve` applied to the session
description returned by `get`: `pod.ip && pod.port` is JavaScript
truthiness, and the middle branch compares the (lower-cased) status with
the capitalised literal `'Pending'`, exactly as in the source. -/
def resolve (pod : SessionDescription) : Except ResolveError String :=
  if jsStringTruthy pod.ip && (pod.port != 0) then
    .ok ("http://" ++ pod.ip ++ ":" ++ toString pod.port)
  else if pod.status = "Pending" then
    .error .notReady
  else
    .error .podFailed

/-! ## Pod listing and pendingPosition (`KubernetesCluster.list`) -/

/-- Comparison used by `sessions.sort((a, b) => a.created - b.created)`. -/
def createdLe (a b : SessionDescription) : Prop :=
  a.created ≤ b.created

instance : DecidableRel createdLe :=
  fun a b => inferInstanceAs (Decidable (a.created ≤ b.created))

instance : IsTotal SessionDescription createdLe :=
  ⟨fun a b => Int.le_total a.created b.created⟩

instance : IsTrans SessionDescription createdLe :=
  ⟨fun _ _ _ h1 h2 => le_trans h1 h2⟩

/-- Ascending stable sort on `created`, modelling the JavaScript
`Array.prototype.sort` call (stable since ES2019; a stable comparison sort
is uniquely determined by its comparator, so insertion sort computes the
same list). -/
def sortByCreated (sessions : List SessionDescription) : List SessionDescription :=
  List.insertionSort createdLe sessions

/-- The `pendingQueue` pass of `list`: walk the sorted sessions and give
each session whose status is `'pending'` the next queue position. -/
def assignPendingPositions (q : Int) :
    List SessionDescription → List SessionDescription
  | [] => []
  | s :: rest =>
    if s.status = "pending" then
      { s with pendingPosition := q } :: assignPendingPositions (q + 1) rest
    else
      s :: assignPendingPositions q rest

/-- The pure core of `KubernetesCluster.list` on a fresh control-plane
response: parse every pod, sort by `created` ascending, assign pending
positions. -/
def listSessions (podItems : List PodDescription) : List SessionDescription :=
  assignPendingPositions 0 (sortByCreated (podItems.map _podToSession))

/-- Entries of the refreshed `this._list` map, keyed by session id. -/
def buildList (podItems : List PodDescription) : List (String × SessionDescription) :=
  (listSessions podItems).map (fun s => (s.id, s))

/-- Cache refresh interval: `listRefresh: 10000` milliseconds. -/
def LIST_REFRESH : Int := 10000

/-- Mutable fields of `KubernetesCluster` touched by `list`:
`_list` and `_listCachedAt`, both initially unset. -/
structure ClusterCacheState where
  _list : Option (List (String × SessionDescription))
  _listCachedAt : Option Int
deriving DecidableEq, Repr

/-- State at construction time: no cache, no timestamp. -/
def initialCacheState : ClusterCacheState := ⟨none, none⟩

/-- Embedding of `KubernetesCluster.list`. Arguments: current state, the
current clock reading (`new Date().getTime()`), and the control-plane
response that a refresh would receive. Returns the value given to the
caller, the successor state, and whether a control-plane call was issued.
The guard is the source's
`!this._listCachedAt || now - cachedAt > this._options.listRefresh`. -/
def listCall (st : ClusterCacheState) (now : Int) (response : List PodDescription) :
    List (String × SessionDescription) × ClusterCacheState × Bool :=
  let stale : Bool :=
    match st._listCachedAt with
    | none => true
    | some t => now - t > LIST_REFRESH
  if stale then
    let entries := buildList response
    (entries, ⟨some entries, some now⟩, true)
  else
    match st._list with
    | none => ([], st, false)
    | some entries => (entries, st, false)

/-- Run a sequence of `list()` calls, each with its clock reading and the
response a refresh would receive, and record the times at which a
control-plane call was actually issued. -/
def runListCalls (st : ClusterCacheState) :
    List (Int × List PodDescription) → List Int
  | [] => []
  | (now, response) :: rest =>
    let r := listCall st now response
    if r.2.2 then now :: runListCalls r.2.1 rest
    else runListCalls r.2.1 rest

/-! ## Environment registry and spawn (`KubernetesCluster.spawn`) -/

/-- Name/value environment variable pair. -/
structure NameValuePair where
  name : String
  value : String
deriving DecidableEq, Repr

/-- The TypeScript numeric enum `ImagePullPolicy` (`Always = 0`,
`IfNotPresent = 1`). -/
inductive ImagePullPolicy where
  | Always
  | IfNotPresent
deriving DecidableEq, Repr

/-- Numeric value of an enum member, needed because the source applies
JavaScript truthiness to it (`container.imagePullPolicy || ...`). -/
def ImagePullPolicy.num : ImagePullPolicy → Nat
  | .Always => 0
  | .IfNotPresent => 1

/-- Reverse enum mapping `ImagePullPolicy[n]` from member to its name. -/
def ImagePullPolicy.render : ImagePullPolicy → String
  | .Always => "Always"
  | .IfNotPresent => "IfNotPresent"

/-- Registered container environment (`ContainerDescription` in
`part_000`); `vars` defaults to `[]` and `imagePullPolicy` is optional in
the source constructor. -/
structure ContainerDescription where
  image : String
  cmd : List String
  vars : List NameValuePair
  imagePullPolicy : Option ImagePullPolicy
deriving DecidableEq, Repr

/-- Default value of the `STENCILA_CORE_IMAGE` environment setting. -/
def STENCILA_CORE_IMAGE : String := "stencila/core"

/-- The `DEFAULT_CONTAINERS` array from `part_000`. -/
def DEFAULT_CONTAINERS : List ContainerDescription :=
  [ { image := STENCILA_CORE_IMAGE
    , cmd := ["stencila-cmd"]
    , vars := [{ name := "STENCILA_AUTH", value := "false" }]
    , imagePullPolicy := some .IfNotPresent }
  , { image := "stencila/base-node"
    , cmd := ["stencila-cmd"]
    , vars := [{ name := "STENCILA_AUTH", value := "false" }]
    , imagePullPolicy := some .Always }
  , { image := "alpine"
    , cmd := ["sleep", "90"]
    , vars := []
    , imagePullPolicy := none } ]

/-- The `CONTAINER_MAP`: environments keyed by their image name, as built
by `new Map(DEFAULT_CONTAINERS.map(c => [c.image, c]))`. -/
def CONTAINER_MAP : List (String × ContainerDescription) :=
  DEFAULT_CONTAINERS.map (fun c => (c.image, c))

/-- Labels attached to a spawned pod (`PodLabels` in `part_000`). -/
structure PodLabels where
  type : String
  reason : String
deriving DecidableEq, Repr

/-- Metadata of a pod creation request. -/
structure PodRequestMetadata where
  name : String
  type : String
  labels : PodLabels
deriving DecidableEq, Repr

/-- Exposed container port. -/
structure ContainerPortDefinition where
  containerPort : Nat
deriving DecidableEq, Repr

/-- Container section of a pod creation request. -/
structure ContainerDefinition where
  name : String
  image : String
  imagePullPolicy : String
  env : List NameValuePair
  command : List String
  args : List String
  resources : ContainerResources
  ports : List ContainerPortDefinition
deriving DecidableEq, Repr

/-- Pod security context (`runAsUser`). -/
structure PodSecurityContext where
  runAsUser : Nat
deriving DecidableEq, Repr

/-- Label match expression of an affinity term. -/
structure MatchExpression where
  key : String
  operator : String
  values : List String
deriving DecidableEq, Repr

/-- Label selector of an affinity term. -/
structure LabelSelector where
  matchExpressions : List MatchExpression
deriving DecidableEq, Repr

/-- Affinity term (selector plus topology key). -/
structure PodAffinityTerm where
  labelSelector : LabelSelector
  topologyKey : String
deriving DecidableEq, Repr

/-- Weighted soft affinity entry. -/
structure PreferredDuringSchedulingIgnoredDuringExecutionDefinition where
  weight : Nat
  podAffinityTerm : PodAffinityTerm
deriving DecidableEq, Repr

/-- Pod affinity block. -/
structure PodAffinity where
  preferredDuringSchedulingIgnoredDuringExecution :
    List PreferredDuringSchedulingIgnoredDuringExecutionDefinition
deriving DecidableEq, Repr

/-- Wrapper object under the `affinity` key. -/
structure PodAffinityWrapper where
  podAffinity : PodAffinity
deriving DecidableEq, Repr

/-- Spec section of a pod creation request (`PodRequestSpec`). -/
structure PodRequestSpec where
  containers : List ContainerDefinition
  restartPolicy : String
  securityContext : PodSecurityContext
  automountServiceAccountToken : Bool
  affinity : Option PodAffinityWrapper
deriving DecidableEq, Repr

/-- Complete pod creation request (`PodRequest`). -/
structure PodRequest where
  kind : String
  apiVersion : String
  metadata : PodRequestMetadata
  spec : PodRequestSpec
deriving DecidableEq, Repr

/-- The failure exit of `spawn` before any control-plane call:
`TypeError('Container with environment ID ... does not exist.')`. -/
inductive SpawnError where
  | unknownEnvironment (environId : String)
deriving DecidableEq, Repr

/-- Rendered pull policy
`ImagePullPolicy[container.imagePullPolicy || ImagePullPolicy.IfNotPresent]`:
the policy is a numeric enum, so JavaScript truthiness keeps it only when
its numeric value is nonzero. -/
def renderPullPolicy (p : Option ImagePullPolicy) : String :=
  match p with
  | some policy =>
    if policy.num ≠ 0 then policy.render else ImagePullPolicy.IfNotPresent.render
  | none => ImagePullPolicy.IfNotPresent.render

/-- Embedding of `KubernetesCluster.spawn`. The generated pod name
(timestamp plus random suffix) and the `SESSION_AFFINITY` configuration
value are passed in as arguments; the returned `PodRequest` is the body of
the control-plane `post` that the method would issue, and an `error`
result means the method threw before reaching the control plane. -/
def spawn (cfg : ResourceConfig) (sessionAffinity : Nat) (name : String)
    (session : SoftwareSession) (reason : String) :
    Except SpawnError PodRequest :=
  let labels : PodLabels := { type := "session", reason := reason }
  let environId := session.environment.id
  match CONTAINER_MAP.lookup environId with
  | none => .error (.unknownEnvironment environId)
  | some container =>
    let resources := softwareSessionToResourceLimitsTransformer cfg session
    let affinity : Option PodAffinityWrapper :=
      if sessionAffinity ≠ 0 then
        some
          { podAffinity :=
            { preferredDuringSchedulingIgnoredDuringExecution :=
              [ { weight := sessionAffinity
                , podAffinityTerm :=
                  { labelSelector :=
                    { matchExpressions :=
                      [{ key := "type", operator := "In", values := ["session"] }] }
                  , topologyKey := "kubernetes.io/hostname" } } ] } }
      else none
    .ok
      { kind := "Pod"
      , apiVersion := "v1"
      , metadata := { name := name, type := "stencila-cloud-pod", labels := labels }
      , spec :=
        { containers :=
          [ { name := "stencila-host-container"
            , image := container.image
            , imagePullPolicy := renderPullPolicy container.imagePullPolicy
            , env := container.vars
            , command := container.cmd.take 1
            , args := container.cmd.drop 1
            , resources := resources
            , ports := [{ containerPort := DEFAULT_PORT }] }]
        , restartPolicy := "Never"
        , securityContext := { runAsUser := 1000 }
        , automountServiceAccountToken := false
        , affinity := affinity } }

/-- Effect of one `spawn` call on the control plane, modelled as the list
of pod creation requests accepted so far: a successful spawn appends its
request, a failed one leaves the control plane untouched. -/
def spawnExec (cfg : ResourceConfig) (sessionAffinity : Nat) (name : String)
    (session : SoftwareSession) (reason : String)
    (controlPlane : List PodRequest) :
    List PodRequest × Except SpawnError String :=
  match spawn cfg sessionAffinity name session reason with
  | .error e => (controlPlane, .error e)
  | .ok req => (controlPlane ++ [req], .ok req.metadata.name)

/-! ## The legacy Host (`src/Host.js`): aquire and obtain

The production (Kubernetes) branch of `Host.aquire` is embedded. Each
iteration of the claim/verify loop consumes one `AquireAttempt`: the pod
listing the control plane returned for `labelSelector: pool=standby`, the
pod object returned by the claim patch (whose `labels.claimer` is
compared against this host's id), and the pod object returned by the
second (aquire) patch, whose `podIP` forms the returned URL. A result of
`none` means the caller's callback was never invoked within the given
attempts; `some` carries the error-first callback value (transport errors
from the Kubernetes client are not modelled). -/

/-- View of a pod as used by `Host.aquire`. -/
structure HostPod where
  name : String
  phase : String
  podIP : String
  claimer : String
deriving DecidableEq, Repr

/-- Inputs consumed by one iteration of the `aquire` loop. -/
structure AquireAttempt where
  items : List HostPod
  claimResponse : HostPod
  aquireResponse : HostPod
deriving DecidableEq, Repr

/-- The `for (let pod of pods.items) ... if (pod.status.phase === 'Running')
... break` scan: first Running pod, if any. -/
def findRunning (items : List HostPod) : Option HostPod :=
  items.find? (fun p => p.phase == "Running")

/-- Embedding of the production branch of `Host.aquire`. The callback value
is `Except String (Option String)`: an error-first pair of a thrown error
and the pod URL (`null` is possible only in the development branch, hence
`Option`). If the listing holds no Running pod the `for` loop falls
through without invoking the callback (`none`); if the claimer check fails
the whole procedure re-runs on the remaining attempts. -/
def aquire (hostId : String) : List AquireAttempt → Option (Except String (Option String))
  | [] => none
  | a :: rest =>
    match findRunning a.items with
    | none => none
    | some _ =>
      if a.claimResponse.claimer = hostId then
        some (.ok (some ("http://" ++ a.aquireResponse.podIP ++ ":2000")))
      else
        aquire hostId rest

/-- Number of claim-race retries (recursive re-entries into `aquire`)
performed on a given attempt sequence. -/
def aquireRetries (hostId : String) : List AquireAttempt → Nat
  | [] => 0
  | a :: rest =>
    match findRunning a.items with
    | none => 0
    | some _ =>
      if a.claimResponse.claimer = hostId then 0
      else 1 + aquireRetries hostId rest

/-- Embedding of `Host.obtain`: pass `aquire` errors through, return a
truthy pod URL directly, and fall through to `spawn` only when `aquire`
called back with a falsy pod. The second component records whether
`spawn` was invoked. -/
def obtain (hostId : String) (attempts : List AquireAttempt) (spawnUrl : String) :
    Option (Except String String) × Bool :=
  match aquire hostId attempts with
  | none => (none, false)
  | some (.error e) => (some (.error e), false)
  | some (.ok (some url)) => (some (.ok url), false)
  | some (.ok none) => (some (.ok spawnUrl), true)

/-- A Running standby pod as listed by the control plane. -/
def runningPod : HostPod :=
  { name := "pod-0", phase := "Running", podIP := "10.0.0.1", claimer := "" }

/-- An attempt in which another host's claim patch wins: the claim
response carries the other host's id. -/
def attemptLost : AquireAttempt :=
  { items := [runningPod]
  , claimResponse := { runningPod with claimer := "host-b" }
  , aquireResponse := runningPod }

/-- An attempt in which this host (`host-a`) wins the claim race. -/
def attemptWon : AquireAttempt :=
  { items := [runningPod]
  , claimResponse := { runningPod with claimer := "host-a" }
  , aquireResponse := runningPod }

/-! ## The standby fill loop (`src/lib/Cluster.js`) -/

/-- Default target size of the standby pool (`STANDBY_POOL`). -/
def STANDBY_POOL : Nat := 10

/-- A pod as present in the control plane when the fill loop lists the
cluster, carrying its `pool` label. The listing the source consults is the
full session-pod listing; the `pool` label is recorded here so claims
about standby counting can be stated. -/
structure ListedPod where
  id : String
  pool : String
deriving DecidableEq, Repr

/-- One `spawn(null, 'standby', 'filling')` call issued by the fill loop. -/
structure SpawnCall where
  environId : Option String
  pool : String
  reason : String
deriving DecidableEq, Repr

/-- Embedding of one cycle of `Cluster.fill`: `required` is the target
pool size minus the size of the listing, and the loop body runs once per
index below `required` (so not at all when `required` is zero or
negative, which truncated subtraction encodes). -/
def fill (standbyPool : Nat) (pods : List ListedPod) : List SpawnCall :=
  (List.range (standbyPool - pods.length)).map
    (fun _ => { environId := none, pool := "standby", reason := "filling" })

/-! ## Concrete inputs used by the claims -/

/-- Pod in phase Pending created at time 3. -/
def podPendingT3 : PodDescription :=
  { metadata := { name := "pod-t3", creationTimestamp := 3 }
  , status := { podIP := "", phase := "Pending" } }

/-- Pod in phase Running created at time 1. -/
def podRunningT1 : PodDescription :=
  { metadata := { name := "pod-r1", creationTimestamp := 1 }
  , status := { podIP := "10.0.0.5", phase := "Running" } }

/-- Pod in phase Pending created at time 1. -/
def podPendingT1 : PodDescription :=
  { metadata := { name := "pod-t1", creationTimestamp := 1 }
  , status := { podIP := "", phase := "Pending" } }

/-- Pod in phase Pending created at time 2. -/
def podPendingT2 : PodDescription :=
  { metadata := { name := "pod-t2", creationTimestamp := 2 }
  , status := { podIP := "", phase := "Pending" } }

/-- The input order of the worked example in the specification. -/
def examplePods : List PodDescription :=
  [podPendingT3, podRunningT1, podPendingT1, podPendingT2]

/-- Session with `cpu.shares` present but equal to `0` (a falsy explicit
value). -/
def sessionZeroShares : SoftwareSession :=
  { environment := { id := "alpine" }
  , ram := none
  , cpu := some { shares := some 0 } }

/-- Session asking for 512 cpu shares. -/
def sessionShares512 : SoftwareSession :=
  { environment := { id := "alpine" }
  , ram := none
  , cpu := some { shares := some 512 } }

/-- Session with no declared resources in a registered environment. -/
def sessionPlainAlpine : SoftwareSession :=
  { environment := { id := "alpine" }, ram := none, cpu := none }

/-- Session naming an environment id absent from `CONTAINER_MAP`. -/
def sessionUnknownEnvironment : SoftwareSession :=
  { environment := { id := "no-such-environment" }, ram := none, cpu := none }

/-- A cluster listing holding a single claimed (non-standby) pod. -/
def listingOneClaimed : List ListedPod :=
  [{ id := "pod-1", pool := "claimed" }]

/-! # Theorems -/

/-! ## Helper lemmas about the resource transformer -/

theorem transformer_limits_cpu (cfg : ResourceConfig) (s : SoftwareSession) :
    (softwareSessionToResourceLimitsTransformer cfg s).limits.cpu =
      match s.cpu.bind CpuRequest.shares with
      | some q => if q ≠ 0 then (q / 1024) * 1000 else cfg.POD_LIMIT_CPU
      | none => cfg.POD_LIMIT_CPU := by
  rcases s with ⟨env, ram, cpu⟩
  rcases cpu with _ | ⟨sh⟩
  · rfl
  · rcases sh with _ | v
    · rfl
    · rfl

theorem transformer_requests_memory (cfg : ResourceConfig) (s : SoftwareSession) :
    (softwareSessionToResourceLimitsTransformer cfg s).requests.memory =
      match s.ram.bind RamRequest.reservation with
      | some q => if q ≠ 0 then q else cfg.POD_REQUEST_MEM
      | none => cfg.POD_REQUEST_MEM := by
  rcases s with ⟨env, ram, cpu⟩
  rcases ram with _ | ⟨res, lim⟩
  · rfl
  · rcases res with _ | v
    · rfl
    · rfl

theorem transformer_limits_memory (cfg : ResourceConfig) (s : SoftwareSession) :
    (softwareSessionToResourceLimitsTransformer cfg s).limits.memory =
      match s.ram.bind RamRequest.limit with
      | some q => if q ≠ 0 then q else cfg.POD_LIMIT_MEM
      | none => cfg.POD_LIMIT_MEM := by
  rcases s with ⟨env, ram, cpu⟩
  rcases ram with _ | ⟨res, lim⟩
  · rfl
  · rcases lim with _ | v
    · rfl
    · rfl

/-! ## C10 -/

/-- C10: the derived resource spec's CPU request equals the process-wide
constant request value for every session; in particular two sessions
differing only in their declared resource needs produce identical
`requests.cpu`. -/
theorem c10_requests_cpu_constant :
    (∀ (cfg : ResourceConfig) (s : SoftwareSession),
      (softwareSessionToResourceLimitsTransformer cfg s).requests.cpu =
        cfg.POD_REQUEST_CPU)
  ∧ (∀ (cfg : ResourceConfig) (s1 s2 : SoftwareSession),
      (softwareSessionToResourceLimitsTransformer cfg s1).requests.cpu =
        (softwareSessionToResourceLimitsTransformer cfg s2).requests.cpu) := by
  constructor
  · intro cfg s; rfl
  · intro cfg s1 s2; rfl

/-! ## C7 -/

/-- C7 counterexample: the claim says a given `cpuShares` always yields
the limit `shares/1024 * 1000`, but a session with `cpuShares` explicitly
`0` (a falsy value) falls back to the configured default `1000`, not to
`0/1024 * 1000 = 0`. -/
theorem c7_counterexample :
    sessionZeroShares.cpu = some { shares := some 0 } ∧
    (softwareSessionToResourceLimitsTransformer defaultResourceConfig
        sessionZeroShares).limits.cpu = 1000 ∧
    ((0 : ℚ) / 1024) * 1000 ≠ 1000 := by
  refine ⟨rfl, rfl, by norm_num⟩

/-- C7 amended: when `cpuShares` is given and nonzero the CPU limit is
`shares/1024 * 1000` millicores; when it is absent or zero the limit is
the configured default; memory reservation and memory limit use the
explicit session value when it is given and nonzero and otherwise fall
back to the process default. -/
theorem c7_resource_derivation_amended (cfg : ResourceConfig) (s : SoftwareSession) :
    (∀ q : ℚ, s.cpu.bind CpuRequest.shares = some q → q ≠ 0 →
      (softwareSessionToResourceLimitsTransformer cfg s).limits.cpu = (q / 1024) * 1000)
  ∧ (numTruthy (s.cpu.bind CpuRequest.shares) = false →
      (softwareSessionToResourceLimitsTransformer cfg s).limits.cpu = cfg.POD_LIMIT_CPU)
  ∧ (∀ q : ℚ, s.ram.bind RamRequest.reservation = some q → q ≠ 0 →
      (softwareSessionToResourceLimitsTransformer cfg s).requests.memory = q)
  ∧ (numTruthy (s.ram.bind RamRequest.reservation) = false →
      (softwareSessionToResourceLimitsTransformer cfg s).requests.memory = cfg.POD_REQUEST_MEM)
  ∧ (∀ q : ℚ, s.ram.bind RamRequest.limit = some q → q ≠ 0 →
      (softwareSessionToResourceLimitsTransformer cfg s).limits.memory = q)
  ∧ (numTruthy (s.ram.bind RamRequest.limit) = false →
      (softwareSessionToResourceLimitsTransformer cfg s).limits.memory = cfg.POD_LIMIT_MEM) := by
  refine ⟨?_, ?_, ?_, ?_, ?_, ?_⟩
  · intro q hq hq0
    rw [transformer_limits_cpu, hq]
    exact if_pos hq0
  · intro hf
    rw [transformer_limits_cpu]
    cases hb : s.cpu.bind CpuRequest.shares with
    | none => rfl
    | some q =>
      rw [hb] at hf
      simp only [numTruthy, bne_eq_false_iff_eq] at hf
      simp [hf]
  · intro q hq hq0
    rw [transformer_requests_memory, hq]
    exact if_pos hq0
  · intro hf
    rw [transformer_requests_memory]
    cases hb : s.ram.bind RamRequest.reservation with
    | none => rfl
    | some q =>
      rw [hb] at hf
      simp only [numTruthy, bne_eq_false_iff_eq] at hf
      simp [hf]
  · intro q hq hq0
    rw [transformer_limits_memory, hq]
    exact if_pos hq0
  · intro hf
    rw [transformer_limits_memory]
    cases hb : s.ram.bind RamRequest.limit with
    | none => rfl
    | some q =>
      rw [hb] at hf
      simp only [numTruthy, bne_eq_false_iff_eq] at hf
      simp [hf]

/-- C7 witness: cpuShares 512 yields limit 500m, and a session with no
declared resources gets all three configured defaults. -/
theorem c7_witness :
    (softwareSessionToResourceLimitsTransformer defaultResourceConfig
        sessionShares512).limits.cpu = 500 ∧
    (softwareSessionToResourceLimitsTransformer defaultResourceConfig
        sessionPlainAlpine).limits.cpu = defaultResourceConfig.POD_LIMIT_CPU ∧
    (softwareSessionToResourceLimitsTransformer defaultResourceConfig
        sessionPlainAlpine).requests.memory = defaultResourceConfig.POD_REQUEST_MEM ∧
    (softwareSessionToResourceLimitsTransformer defaultResourceConfig
        sessionPlainAlpine).limits.memory = defaultResourceConfig.POD_LIMIT_MEM := by
  have h512 := (c7_resource_derivation_amended defaultResourceConfig sessionShares512).1
    512 rfl (by norm_num)
  have hdef := c7_resource_derivation_amended defaultResourceConfig sessionPlainAlpine
  refine ⟨?_, hdef.2.1 rfl, hdef.2.2.2.1 rfl, hdef.2.2.2.2.2 rfl⟩
  rw [h512]; norm_num

/-! ## C2 -/

/-- C2 (code bug): `_podToSession` lower-cases the pod phase, so the
`resolve` comparison with the capitalised literal `'Pending'` can never
succeed: a pod in phase `Pending` with no IP address resolves to the
`'Pod failure?'` error instead of the not-ready error the specification
requires. -/
theorem c2_pending_pod_resolves_to_podFailed (name : String) (created : Int) :
    resolve (_podToSession
      { metadata := { name := name, creationTimestamp := created }
      , status := { podIP := "", phase := "Pending" } }) =
      .error .podFailed := by
  rfl

/-! ## C5 -/

/-- C5: every pod creation request built by `spawn`, for every session and
every registered environment, sets `restartPolicy` to `Never`, runs as
non-root user 1000, and sets `automountServiceAccountToken` to `false`. -/
theorem c5_spawn_security (cfg : ResourceConfig) (sessionAffinity : Nat)
    (name : String) (session : SoftwareSession) (reason : String) (req : PodRequest)
    (h : spawn cfg sessionAffinity name session reason = .ok req) :
    req.spec.restartPolicy = "Never" ∧
    req.spec.securityContext.runAsUser = 1000 ∧
    req.spec.automountServiceAccountToken = false := by
  simp only [spawn] at h
  cases hc : CONTAINER_MAP.lookup session.environment.id with
  | none => rw [hc] at h; exact Except.noConfusion h
  | some container =>
    rw [hc] at h
    injection h with h
    subst h
    exact ⟨rfl, rfl, rfl⟩

/-- C5 witness: spawning the registered `alpine` environment produces a
request with the three security fields set as claimed. -/
theorem c5_witness :
    ∃ req, spawn defaultResourceConfig 0 "session-x" sessionPlainAlpine "standby" =
        .ok req ∧
      req.spec.restartPolicy = "Never" ∧
      req.spec.securityContext.runAsUser = 1000 ∧
      req.spec.automountServiceAccountToken = false :=
  ⟨_, rfl, c5_spawn_security defaultResourceConfig 0 "session-x" sessionPlainAlpine
    "standby" _ rfl⟩

/-! ## C8 -/

/-- C8: a session whose environment id is not registered makes `spawn`
fail with the unknown-environment error before any control-plane call, so
the control-plane state is unchanged. -/
theorem c8_unknown_environment (cfg : ResourceConfig) (sessionAffinity : Nat)
    (name : String) (session : SoftwareSession) (reason : String)
    (controlPlane : List PodRequest)
    (h : CONTAINER_MAP.lookup session.environment.id = none) :
    spawnExec cfg sessionAffinity name session reason controlPlane =
      (controlPlane, .error (.unknownEnvironment session.environment.id)) := by
  simp [spawnExec, spawn, h]

/-- C8 witness: the id `no-such-environment` is not registered and a spawn
for it leaves the control plane untouched. -/
theorem c8_witness :
    CONTAINER_MAP.lookup sessionUnknownEnvironment.environment.id = none ∧
    spawnExec defaultResourceConfig 0 "session-x" sessionUnknownEnvironment
        "standby" [] =
      ([], .error (.unknownEnvironment "no-such-environment")) :=
  ⟨rfl, c8_unknown_environment defaultResourceConfig 0 "session-x"
    sessionUnknownEnvironment "standby" [] rfl⟩

/-! ## C9 -/

/-- C9 counterexample: with the default target pool size 10 and a listing
holding one claimed (non-standby) pod, the code spawns
`10 - pods.size = 9` pods, while the claimed deficit
`target - count(pool==standby) = 10 - 0` is 10. -/
theorem c9_counterexample :
    (fill STANDBY_POOL listingOneClaimed).length = 9 ∧
    STANDBY_POOL - List.countP (fun p => p.pool == "standby") listingOneClaimed = 10 ∧
    (9 : Nat) ≠ 10 := by
  refine ⟨rfl, rfl, by decide⟩

/-- C9 amended: each fill cycle computes the deficit as the target pool
size minus the total number of listed pods (regardless of their pool
label) and issues exactly that many spawn calls tagged `pool=standby`
with reason `filling` (none when the deficit is zero or negative, which
truncated subtraction encodes). -/
theorem c9_fill_amended (standbyPool : Nat) (pods : List ListedPod) :
    (fill standbyPool pods).length = standbyPool - pods.length ∧
    ∀ op ∈ fill standbyPool pods, op.pool = "standby" ∧ op.reason = "filling" := by
  constructor
  · simp [fill]
  · intro op hop
    simp only [fill, List.mem_map] at hop
    obtain ⟨i, _, rfl⟩ := hop
    exact ⟨rfl, rfl⟩

/-- C9 witness: the amended statement evaluated on the single-claimed-pod
listing with the default target size. -/
theorem c9_witness :
    (fill 10 listingOneClaimed).length = 10 - listingOneClaimed.length ∧
    (({ environId := none, pool := "standby", reason := "filling" } : SpawnCall).pool
        = "standby" ∧
      ({ environId := none, pool := "standby", reason := "filling" } : SpawnCall).reason
        = "filling") :=
  ⟨(c9_fill_amended 10 listingOneClaimed).1,
    (c9_fill_amended 10 listingOneClaimed).2 _ (by decide)⟩

/-! ## C1 -/

theorem aquire_cons_lost (rest : List AquireAttempt) :
    aquire "host-a" (attemptLost :: rest) = aquire "host-a" rest := rfl

theorem aquireRetries_cons_lost (rest : List AquireAttempt) :
    aquireRetries "host-a" (attemptLost :: rest) =
      1 + aquireRetries "host-a" rest := rfl

theorem aquire_lose_win (n : Nat) :
    aquire "host-a" (List.replicate n attemptLost ++ [attemptWon]) =
      some (.ok (some "http://10.0.0.1:2000")) := by
  induction n with
  | zero => rfl
  | succ n ih =>
    rw [List.replicate_succ, List.cons_append, aquire_cons_lost]
    exact ih

theorem aquireRetries_lose_win (n : Nat) :
    aquireRetries "host-a" (List.replicate n attemptLost ++ [attemptWon]) = n := by
  induction n with
  | zero => rfl
  | succ n ih =>
    rw [List.replicate_succ, List.cons_append, aquireRetries_cons_lost, ih]
    omega

theorem aquire_ne_error (hostId : String) (attempts : List AquireAttempt) (e : String) :
    aquire hostId attempts ≠ some (.error e) := by
  induction attempts with
  | nil => simp [aquire]
  | cons a rest ih =>
    simp only [aquire]
    cases findRunning a.items with
    | none => simp
    | some p =>
      by_cases hc : a.claimResponse.claimer = hostId
      · simp [hc]
      · simpa [hc] using ih

/-- C1 counterexample: no retry ceiling exists. For every candidate
ceiling `N` there is a run — `N + 1` lost claim races followed by a won
one — whose retry count exceeds `N` and which still does not fail with a
`PoolExhausted` error. -/
theorem c1_counterexample :
    ¬ ∃ N : Nat, ∀ n : Nat,
        aquireRetries "host-a" (List.replicate n attemptLost ++ [attemptWon]) ≤ N ∨
        aquire "host-a" (List.replicate n attemptLost ++ [attemptWon]) =
          some (.error "PoolExhausted") := by
  rintro ⟨N, hN⟩
  rcases hN (N + 1) with h | h
  · rw [aquireRetries_lose_win] at h
    omega
  · rw [aquire_lose_win] at h
    exact absurd h (by simp)

/-- C1 amended: losing the claimer verification re-runs the whole acquire
unconditionally, with no retry ceiling: the call never fails with a
`PoolExhausted` error, and after any number `n` of lost claim races a
subsequently won race still hands the caller the pod URL, having
performed exactly `n` retries. -/
theorem c1_aquire_retry_amended (hostId : String) (attempts : List AquireAttempt)
    (n : Nat) :
    aquire hostId attempts ≠ some (.error "PoolExhausted") ∧
    aquire "host-a" (List.replicate n attemptLost ++ [attemptWon]) =
      some (.ok (some "http://10.0.0.1:2000")) ∧
    aquireRetries "host-a" (List.replicate n attemptLost ++ [attemptWon]) = n :=
  ⟨aquire_ne_error hostId attempts "PoolExhausted", aquire_lose_win n,
    aquireRetries_lose_win n⟩

/-- C1 witness: the amended statement evaluated at a concrete host, a
concrete attempt list and three lost races. -/
theorem c1_witness :
    aquire "host-a" [attemptWon] ≠ some (.error "PoolExhausted") ∧
    aquire "host-a" (List.replicate 3 attemptLost ++ [attemptWon]) =
      some (.ok (some "http://10.0.0.1:2000")) ∧
    aquireRetries "host-a" (List.replicate 3 attemptLost ++ [attemptWon]) = 3 :=
  c1_aquire_retry_amended "host-a" [attemptWon] 3

/-! ## C3 -/

/-- C3 (code bug): in the production branch of `Host.aquire`, a standby
listing with no Running pod makes the `for` loop fall through without
ever invoking the callback, whatever could happen afterwards; `obtain`
therefore never completes and never reaches `spawn`, while the
specification requires it to fall through to `spawn` and return the
spawned pod's address. -/
theorem c3_empty_pool_never_spawns (hostId : String) (a : AquireAttempt)
    (rest : List AquireAttempt) (spawnUrl : String)
    (h : findRunning a.items = none) :
    obtain hostId (a :: rest) spawnUrl = (none, false) := by
  have ha : aquire hostId (a :: rest) = none := by
    simp [aquire, h]
  simp [obtain, ha]

/-- C3 witness: the code-bug theorem evaluated on an empty standby
listing. -/
theorem c3_witness :
    obtain "host-a"
      [{ items := [], claimResponse := runningPod, aquireResponse := runningPod }]
      "http://spawned:2000" = (none, false) :=
  c3_empty_pool_never_spawns "host-a" _ [] _ rfl

/-! ## C4 -/

theorem listCall_cacheHit (st : ClusterCacheState) (now : Int)
    (response : List PodDescription) (t : Int)
    (entries : List (String × SessionDescription))
    (ht : st._listCachedAt = some t) (hl : st._list = some entries)
    (hfresh : now - t ≤ LIST_REFRESH) :
    listCall st now response = (entries, st, false) := by
  simp only [listCall, ht, hl]
  rw [if_neg (by simp [not_lt.mpr hfresh])]

/-- Case analysis of one `listCall`: either it fetched, the staleness
guard held, and the new cache timestamp is `now`; or it did not fetch and
the state is unchanged. -/
theorem listCall_cases (st : ClusterCacheState) (now : Int)
    (response : List PodDescription) :
    ((listCall st now response).2.2 = true ∧
      (st._listCachedAt = none ∨
        ∃ t, st._listCachedAt = some t ∧ now - t > LIST_REFRESH) ∧
      (listCall st now response).2.1._listCachedAt = some now)
    ∨ ((listCall st now response).2.2 = false ∧
        (listCall st now response).2.1 = st) := by
  cases ht : st._listCachedAt with
  | none =>
    left
    refine ⟨?_, Or.inl rfl, ?_⟩ <;> simp [listCall, ht]
  | some t =>
    by_cases hs : now - t > LIST_REFRESH
    · left
      refine ⟨?_, Or.inr ⟨t, rfl, hs⟩, ?_⟩ <;> simp [listCall, ht, hs]
    · right
      constructor <;>
      · simp only [listCall, ht]
        rw [if_neg (by simpa using hs)]
        cases st._list <;> rfl

theorem runListCalls_gap (calls : List (Int × List PodDescription)) :
    ∀ (st : ClusterCacheState) (t : Int), st._listCachedAt = some t →
      ∀ x ∈ runListCalls st calls, x - t > LIST_REFRESH := by
  induction calls with
  | nil => intro st t ht x hx; simp [runListCalls] at hx
  | cons c rest ih =>
    obtain ⟨now, response⟩ := c
    intro st t ht x hx
    simp only [runListCalls] at hx
    rcases listCall_cases st now response with ⟨hf, hguard, hcached⟩ | ⟨hf, hst⟩
    · rw [if_pos hf] at hx
      have hnow : now - t > LIST_REFRESH := by
        rcases hguard with hnone | ⟨t', ht', hgt⟩
        · rw [ht] at hnone; exact Option.noConfusion hnone
        · rw [ht] at ht'
          injection ht' with ht''
          rw [ht'']; exact hgt
      rcases List.mem_cons.mp hx with rfl | hx'
      · exact hnow
      · have hx'' := ih _ now hcached x hx'
        have hR : (0 : Int) ≤ LIST_REFRESH := by decide
        omega
    · rw [if_neg (by simp [hf])] at hx
      rw [hst] at hx
      exact ih st t ht x hx

theorem runListCalls_pairwise (calls : List (Int × List PodDescription)) :
    ∀ st : ClusterCacheState,
      List.Pairwise (fun a b => b - a > LIST_REFRESH) (runListCalls st calls) := by
  induction calls with
  | nil => intro st; simp [runListCalls]
  | cons c rest ih =>
    obtain ⟨now, response⟩ := c
    intro st
    simp only [runListCalls]
    rcases listCall_cases st now response with ⟨hf, _, hcached⟩ | ⟨hf, hst⟩
    · rw [if_pos hf]
      exact List.Pairwise.cons
        (fun x hx => runListCalls_gap rest _ now hcached x hx) (ih _)
    · rw [if_neg (by simp [hf]), hst]
      exact ih st

theorem pairwise_gap_filter_le_one (l : List Int) (t0 : Int)
    (hp : List.Pairwise (fun a b => b - a > LIST_REFRESH) l) :
    (l.filter (fun x => decide (t0 ≤ x) && decide (x ≤ t0 + LIST_REFRESH))).length
      ≤ 1 := by
  rcases hm : l.filter (fun x => decide (t0 ≤ x) && decide (x ≤ t0 + LIST_REFRESH))
    with _ | ⟨a, _ | ⟨b, tail⟩⟩
  · simp
  · simp
  · exfalso
    have hf : List.Pairwise (fun x y => y - x > LIST_REFRESH)
        (a :: b :: tail) := by
      rw [← hm]
      exact List.Pairwise.sublist (List.filter_sublist l) hp
    have hab : b - a > LIST_REFRESH :=
      List.rel_of_pairwise_cons hf (List.mem_cons_self b tail)
    have ha : a ∈ l.filter (fun x => decide (t0 ≤ x) && decide (x ≤ t0 + LIST_REFRESH)) := by
      rw [hm]; exact List.mem_cons_self _ _
    have hb : b ∈ l.filter (fun x => decide (t0 ≤ x) && decide (x ≤ t0 + LIST_REFRESH)) := by
      rw [hm]; exact List.mem_cons_of_mem _ (List.mem_cons_self _ _)
    have ha' := List.of_mem_filter ha
    have hb' := List.of_mem_filter hb
    simp only [Bool.and_eq_true, decide_eq_true_eq] at ha' hb'
    omega

/-- C4: a `list()` call on a cache whose age is at most the refresh
interval returns the cached snapshot unchanged, leaves the state
unchanged and issues no control-plane call; consequently, along every
sequence of `list()` calls, any window of one refresh interval contains
at most one control-plane fetch. -/
theorem c4_list_cache :
    (∀ (st : ClusterCacheState) (now : Int) (response : List PodDescription)
        (t : Int) (entries : List (String × SessionDescription)),
      st._listCachedAt = some t → st._list = some entries →
      now - t ≤ LIST_REFRESH →
      listCall st now response = (entries, st, false))
  ∧ (∀ (st : ClusterCacheState) (calls : List (Int × List PodDescription))
        (t0 : Int),
      ((runListCalls st calls).filter
        (fun x => decide (t0 ≤ x) && decide (x ≤ t0 + LIST_REFRESH))).length ≤ 1) :=
  ⟨fun st now response t entries ht hl hfresh =>
      listCall_cacheHit st now response t entries ht hl hfresh,
    fun st calls t0 =>
      pairwise_gap_filter_le_one _ t0 (runListCalls_pairwise calls st)⟩

/-- C4 witness: a fresh cache (age 5000 ms out of the 10000 ms interval)
is returned unchanged with no fetch, and a two-call trace makes at most
one fetch inside one window. -/
theorem c4_witness :
    listCall ⟨some [], some 0⟩ 5000 [podRunningT1] = ([], ⟨some [], some 0⟩, false) ∧
    ((runListCalls initialCacheState [(0, []), (5000, [])]).filter
      (fun x => decide ((0 : Int) ≤ x) && decide (x ≤ 0 + LIST_REFRESH))).length ≤ 1 :=
  ⟨c4_list_cache.1 ⟨some [], some 0⟩ 5000 [podRunningT1] 0 [] rfl rfl (by decide),
    c4_list_cache.2 initialCacheState [(0, []), (5000, [])] 0⟩

/-! ## C6 -/

theorem mem_assignPendingPositions_shape :
    ∀ (l : List SessionDescription) (q : Int) (s : SessionDescription),
      s ∈ assignPendingPositions q l →
      ∃ t ∈ l, s.created = t.created ∧ s.status = t.status := by
  intro l
  induction l with
  | nil => intro q s hs; simp [assignPendingPositions] at hs
  | cons x rest ih =>
    intro q s hs
    simp only [assignPendingPositions] at hs
    by_cases hx : x.status = "pending"
    · rw [if_pos hx] at hs
      rcases List.mem_cons.mp hs with h | h
      · subst h
        exact ⟨x, List.mem_cons_self x rest, rfl, rfl⟩
      · obtain ⟨t, ht, h1, h2⟩ := ih (q + 1) s h
        exact ⟨t, List.mem_cons_of_mem x ht, h1, h2⟩
    · rw [if_neg hx] at hs
      rcases List.mem_cons.mp hs with h | h
      · exact ⟨x, List.mem_cons_self x rest, by rw [h], by rw [h]⟩
      · obtain ⟨t, ht, h1, h2⟩ := ih q s h
        exact ⟨t, List.mem_cons_of_mem x ht, h1, h2⟩

/-- On a list sorted ascending by `created` whose pending elements have
pairwise distinct creation times, the pending-queue pass gives each
pending element the start offset plus the number of pending elements
created strictly earlier, and returns non-pending elements unchanged. -/
theorem assignPendingPositions_spec :
    ∀ (l : List SessionDescription) (q : Int),
      List.Pairwise (fun a b => a.created ≤ b.created) l →
      List.Pairwise (fun a b => a.status = "pending" → b.status = "pending" →
        a.created ≠ b.created) l →
      ∀ s ∈ assignPendingPositions q l,
        (s.status = "pending" →
          s.pendingPosition = q +
            (l.countP (fun t => t.status == "pending" &&
              decide (t.created < s.created)) : Int))
        ∧ (s.status ≠ "pending" → s ∈ l) := by
  intro l
  induction l with
  | nil => intro q _ _ s hs; simp [assignPendingPositions] at hs
  | cons x rest ih =>
    intro q hsort hdist s hs
    obtain ⟨hsx, hsr⟩ := List.pairwise_cons.mp hsort
    obtain ⟨hdx, hdr⟩ := List.pairwise_cons.mp hdist
    simp only [assignPendingPositions] at hs
    by_cases hx : x.status = "pending"
    · rw [if_pos hx] at hs
      rcases List.mem_cons.mp hs with h | h
      · subst h
        constructor
        · intro _
          have h0 : List.countP
              (fun t => t.status == "pending" &&
                decide (t.created <
                  ({x with pendingPosition := q} : SessionDescription).created))
              (x :: rest) = 0 := by
            rw [List.countP_eq_zero]
            intro t ht
            rcases List.mem_cons.mp ht with rfl | ht'
            · simp
            · simp [not_lt.mpr (hsx t ht')]
          rw [h0]
          simp
        · intro hns
          exact absurd hx hns
      · have hm := ih (q + 1) hsr hdr s h
        constructor
        · intro hsp
          obtain ⟨t, htr, hc, hst⟩ := mem_assignPendingPositions_shape rest (q + 1) s h
          have hxt : x.created < t.created :=
            lt_of_le_of_ne (hsx t htr) (hdx t htr hx (by rw [← hst]; exact hsp))
          have hxs : x.created < s.created := by rw [hc]; exact hxt
          have hpx : (x.status == "pending" && decide (x.created < s.created)) = true := by
            simp [hx, hxs]
          rw [List.countP_cons, hpx, hm.1 hsp]
          push_cast
          simp
          omega
        · intro hns
          exact List.mem_cons_of_mem x (hm.2 hns)
    · rw [if_neg hx] at hs
      rcases List.mem_cons.mp hs with h | h
      · constructor
        · intro hsp
          rw [h] at hsp
          exact absurd hsp hx
        · intro _
          rw [h]
          exact List.mem_cons_self x rest
      · have hm := ih q hsr hdr s h
        constructor
        · intro hsp
          have hpx : (x.status == "pending" && decide (x.created < s.created)) = false := by
            simp [hx]
          rw [List.countP_cons, hpx, hm.1 hsp]
          simp
        · intro hns
          exact List.mem_cons_of_mem x (hm.2 hns)

/-- C6: in every `list()` result whose Pending pods have pairwise distinct
creation times, a pending session's `pendingPosition` equals the number
of input pods that are Pending and created strictly earlier — so the
Pending pods receive ranks 0,1,2,… in ascending `createdAt` order,
independent of input order — and every non-Pending session keeps the
rank-less marker `-1`; on the worked example with phases
Pending at 3, Running at 1, Pending at 1, Pending at 2, the Pending pods
created at 1, 2, 3 receive ranks 0, 1, 2. -/
theorem c6_pendingPosition (pods : List PodDescription)
    (hdist : List.Pairwise (fun p q =>
      jsToLowerCase p.status.phase = "pending" →
      jsToLowerCase q.status.phase = "pending" →
      p.metadata.creationTimestamp ≠ q.metadata.creationTimestamp) pods) :
    (∀ s ∈ listSessions pods,
      (s.status = "pending" →
        s.pendingPosition =
          (pods.countP (fun p => jsToLowerCase p.status.phase == "pending" &&
            decide (p.metadata.creationTimestamp < s.created)) : Int))
      ∧ (s.status ≠ "pending" → s.pendingPosition = -1))
  ∧ listSessions examplePods =
      [ { id := "pod-r1", ip := "10.0.0.5", port := 2000, created := 1,
          status := "running", pendingPosition := -1 }
      , { id := "pod-t1", ip := "", port := 2000, created := 1,
          status := "pending", pendingPosition := 0 }
      , { id := "pod-t2", ip := "", port := 2000, created := 2,
          status := "pending", pendingPosition := 1 }
      , { id := "pod-t3", ip := "", port := 2000, created := 3,
          status := "pending", pendingPosition := 2 } ] := by
  constructor
  · intro s hs
    have hperm : List.Perm (List.insertionSort createdLe (pods.map _podToSession))
        (pods.map _podToSession) :=
      List.perm_insertionSort createdLe (pods.map _podToSession)
    have hsort : List.Pairwise (fun a b : SessionDescription => a.created ≤ b.created)
        (List.insertionSort createdLe (pods.map _podToSession)) :=
      List.sorted_insertionSort createdLe (pods.map _podToSession)
    have hdl : List.Pairwise (fun a b : SessionDescription =>
        a.status = "pending" → b.status = "pending" → a.created ≠ b.created)
        (pods.map _podToSession) := by
      rw [List.pairwise_map]
      exact hdist
    have hsymm : ∀ {a b : SessionDescription},
        (a.status = "pending" → b.status = "pending" → a.created ≠ b.created) →
        (b.status = "pending" → a.status = "pending" → b.created ≠ a.created) :=
      fun h hb ha => (h ha hb).symm
    have hdsorted := (hperm.pairwise_iff hsymm).mpr hdl
    have hspec := assignPendingPositions_spec
      (List.insertionSort createdLe (pods.map _podToSession)) 0 hsort hdsorted s hs
    constructor
    · intro hsp
      have hc1 : (List.insertionSort createdLe (pods.map _podToSession)).countP
          (fun t => t.status == "pending" && decide (t.created < s.created)) =
          (pods.map _podToSession).countP
            (fun t => t.status == "pending" && decide (t.created < s.created)) :=
        hperm.countP_eq _
      rw [hspec.1 hsp, hc1, List.countP_map, zero_add]
      rfl
    · intro hns
      have hmem : s ∈ pods.map _podToSession := hperm.mem_iff.mp (hspec.2 hns)
      obtain ⟨p, _, rfl⟩ := List.mem_map.mp hmem
      rfl
  · rfl

/-- C6 witness: the characterization applied to the worked example at the
pending session created at time 2, whose rank is the number of Pending
input pods created earlier (namely one). -/
theorem c6_witness :
    ({ id := "pod-t2", ip := "", port := 2000, created := 2,
        status := "pending", pendingPosition := 1 } : SessionDescription).pendingPosition =
      (examplePods.countP (fun p => jsToLowerCase p.status.phase == "pending" &&
        decide (p.metadata.creationTimestamp < (2 : Int))) : Int) :=
  ((c6_pendingPosition examplePods (by decide)).1 _ (by decide)).1 rfl

end StencilaCloud
